import Mathlib

/-!
Shallow embedding of the maltego Go library (github.com/dreadl0ck/maltego):
the XML escaping utility, the entity / message-envelope data model, the
envelope helper operations, the XML marshalling of the envelope as performed
by Go's encoding/xml for these concrete structures (validated against the
byte-exact expected outputs in transform_test.go), a decoder for the wire
format, and the local-invocation argument parser.

Go pointers become Option, Go slices become List, Go maps become association
lists, and a Go process-terminating failure (log.Fatal) or runtime panic
(nil-pointer dereference) becomes the none case of an Option-valued function.
-/

set_option maxRecDepth 8000

namespace Maltego

/-! ## XML escaping (models Go encoding/xml EscapeText and the repository's EscapeText) -/

/-- The double-quote character. -/
def quoteChar : Char := Char.ofNat 34

/-- The single-quote character. -/
def aposChar : Char := Char.ofNat 39

/-- Models Go xml.isInCharacterRange: which runes are valid XML characters. -/
def xmlCharInRange (c : Char) : Bool :=
  let v := c.toNat
  v = 0x09 || v = 0x0A || v = 0x0D ||
  (0x20 ≤ v && v ≤ 0xD7FF) ||
  (0xE000 ≤ v && v ≤ 0xFFFD) ||
  (0x10000 ≤ v && v ≤ 0x10FFFF)

/-- Per-character escaping table of Go xml.EscapeText / the marshaller's
EscapeString: the five markup characters and tab/newline/carriage-return
become character entities, runes outside the XML character range become
U+FFFD, every other rune is passed through. -/
def escChar (c : Char) : List Char :=
  if c = quoteChar then "&#34;".data
  else if c = aposChar then "&#39;".data
  else if c = '&' then "&amp;".data
  else if c = '<' then "&lt;".data
  else if c = '>' then "&gt;".data
  else if c = '\t' then "&#x9;".data
  else if c = '\n' then "&#xA;".data
  else if c = '\r' then "&#xD;".data
  else if xmlCharInRange c then [c]
  else [Char.ofNat 0xFFFD]

/-- Models Go xml.EscapeText (equivalently the marshaller's EscapeString):
escape every character of the text. -/
def escapeString (s : String) : String :=
  ⟨(s.data.map escChar).flatten⟩

/-- Models `strings.NewReplacer("&#xA;", "\n")`: replace every
non-overlapping occurrence of the five-character sequence `&#xA;` by a
line-feed character, scanning left to right. -/
def replaceEntityNewline : List Char → List Char
  | [] => []
  | '&' :: '#' :: 'x' :: 'A' :: ';' :: rest => '\n' :: replaceEntityNewline rest
  | c :: rest => c :: replaceEntityNewline rest

/-- maltego.EscapeText (transform.go utility file): apply standard XML
character escaping, then replace every `&#xA;` occurrence of the escaped
text by a literal newline. -/
def EscapeText (text : String) : String :=
  ⟨replaceEntityNewline (escapeString text).data⟩

/-! ## Data model (transform.go, transformEntity.go, request.go) -/

/-- Field structure (transformEntity.go). -/
structure Field where
  Text : String
  MatchingRule : String
  Name : String
  DisplayName : String
  deriving Repr, DecidableEq

/-- AdditionalFields is a container for fields (transformEntity.go). -/
structure AdditionalFields where
  Items : List Field
  deriving Repr, DecidableEq

/-- GenealogyType structure (transformEntity.go). -/
structure GenealogyType where
  Name : String
  OldName : String
  deriving Repr, DecidableEq

/-- Genealogy structure (transformEntity.go); its single field is named
`Type` in Go, which is a reserved word here. -/
structure Genealogy where
  Typ : GenealogyType
  deriving Repr, DecidableEq

/-- DisplayLabel models a label for display information (transform.go);
the Go field `Type` is rendered here as `Typ`. -/
structure DisplayLabel where
  Text : String
  Name : String
  Typ : String
  deriving Repr, DecidableEq

/-- DisplayInformation models maltego display information (transform.go). -/
structure DisplayInformation where
  Labels : List DisplayLabel
  deriving Repr, DecidableEq

/-- NewDisplayLabel constructor (transform.go). -/
def NewDisplayLabel (text name : String) : DisplayLabel :=
  { Text := text, Name := name, Typ := "text/html" }

/-- Entity models a transform entity (transformEntity.go); the Go field
`Type` is rendered here as `Typ`, and the nilable pointers as Option. -/
structure Entity where
  Typ : String
  Genealogy : Option Genealogy
  Value : String
  Weight : String
  Info : Option DisplayInformation
  IconURL : String
  Fields : Option AdditionalFields
  deriving Repr, DecidableEq

/-- UIMessage models a maltego UI message (transform.go). -/
structure UIMessage where
  Text : String
  MessageType : String
  deriving Repr, DecidableEq

/-- UIMessages is a container for maltego UIMessages (transform.go). -/
structure UIMessages where
  Items : List UIMessage
  deriving Repr, DecidableEq

/-- Entities is a container for maltego entities (transform.go). -/
structure Entities where
  Items : List Entity
  deriving Repr, DecidableEq

/-- ResponseMessage models a maltego response message (transform.go). -/
structure ResponseMessage where
  Entities : Entities
  UIMessages : UIMessages
  deriving Repr, DecidableEq

/-- Exception models a maltego exception (transform.go). -/
structure Exception where
  Text : String
  Code : String
  deriving Repr, DecidableEq

/-- Exceptions is a container for maltego exceptions (transform.go). -/
structure Exceptions where
  Items : List Exception
  deriving Repr, DecidableEq

/-- ExceptionMessage contains one or more exceptions (transform.go). -/
structure ExceptionMessage where
  Exceptions : Exceptions
  deriving Repr, DecidableEq

/-- Limits structure (request message file). -/
structure Limits where
  HardLimit : String
  SoftLimit : String
  deriving Repr, DecidableEq

/-- TransformField structure (request message file). -/
structure TransformField where
  Text : String
  Name : String
  deriving Repr, DecidableEq

/-- TransformFields structure (request message file). -/
structure TransformFields where
  Fields : List TransformField
  deriving Repr, DecidableEq

/-- RequestMessage models a request (request message file). -/
structure RequestMessage where
  Entities : Entities
  Limits : Limits
  TransformFields : TransformFields
  deriving Repr, DecidableEq

/-- Transform models a maltego transformation message (transform.go): the
root envelope, with three independently nilable payload pointers. -/
structure Transform where
  ResponseMessage : Option ResponseMessage
  ExceptionMessage : Option ExceptionMessage
  RequestMessage : Option RequestMessage
  deriving Repr, DecidableEq

/-- The zero value `Transform{}` of Go: all payload pointers nil. -/
def emptyTransform : Transform :=
  { ResponseMessage := none, ExceptionMessage := none, RequestMessage := none }

/-! ## Entity operations (transformEntity.go) -/

/-- NewEntity is the constructor for an Entity (transformEntity.go): the
remaining Go fields take their zero values (nil pointers, empty string). -/
def NewEntity (typ value weight : String) : Entity :=
  { Typ := typ, Genealogy := none, Value := value, Weight := weight,
    Info := none, IconURL := "", Fields := none }

/-- The loop body of GetFieldByName: return the Text of the first field
whose Name matches, else the empty string. -/
def lookupField : List Field → String → String
  | [], _ => ""
  | f :: rest, name => if f.Name = name then f.Text else lookupField rest name

/-- Entity.GetFieldByName (transformEntity.go). The Go code ranges over
`tre.Fields.Items` without a nil check, so when the Fields pointer is nil
the call dereferences a nil pointer and the process panics: that failure is
the `none` case here. -/
def GetFieldByName (tre : Entity) (name : String) : Option String :=
  match tre.Fields with
  | none => none
  | some fs => some (lookupField fs.Items name)

/-- Entity.AddProperty (transformEntity.go): lazily create the Fields
container, escape the value, append a new field; never deduplicate. -/
def AddProperty (tre : Entity) (fieldName displayName matchingRule value : String) : Entity :=
  let fs := match tre.Fields with
    | none => ({ Items := [] } : AdditionalFields)
    | some fs => fs
  { tre with Fields := some { Items := fs.Items ++
      [{ Text := EscapeText value, MatchingRule := matchingRule,
         Name := fieldName, DisplayName := displayName }] } }

/-! ## Envelope helper operations (transform.go) -/

/-- Transform.AddEntity (transform.go): ensure the response message is
initialized, append a new entity with escaped value and weight "100", and
return the envelope together with the handle to the new entity. -/
def AddEntity (tr : Transform) (typ value : String) : Transform × Entity :=
  let rm := match tr.ResponseMessage with
    | none => ({ Entities := { Items := [] }, UIMessages := { Items := [] } } : ResponseMessage)
    | some rm => rm
  let ent := NewEntity typ (EscapeText value) "100"
  let rm' := { rm with Entities := { Items := rm.Entities.Items ++ [ent] } }
  ({ tr with ResponseMessage := some rm' }, ent)

/-- Transform.AddUIMessage (transform.go): ensure the response message is
initialized and append a UI message. -/
def AddUIMessage (tr : Transform) (message messageType : String) : Transform :=
  let rm := match tr.ResponseMessage with
    | none => ({ Entities := { Items := [] }, UIMessages := { Items := [] } } : ResponseMessage)
    | some rm => rm
  let msg : UIMessage := { Text := message, MessageType := messageType }
  let rm' := { rm with UIMessages := { Items := rm.UIMessages.Items ++ [msg] } }
  { tr with ResponseMessage := some rm' }

/-- Transform.AddException (transform.go): ensure the exception message is
initialized and append an exception. It does not touch the response
message. -/
def AddException (tr : Transform) (exceptionString code : String) : Transform :=
  let em := match tr.ExceptionMessage with
    | none => ({ Exceptions := { Items := [] } } : ExceptionMessage)
    | some em => em
  let ex : Exception := { Text := exceptionString, Code := code }
  let em' := { em with Exceptions := { Items := em.Exceptions.Items ++ [ex] } }
  { tr with ExceptionMessage := some em' }

/-! ## Marshalling (what Go xml.Marshal produces for these structures,
validated below against the byte-exact strings of transform_test.go) -/

/-- Concatenation of the renderings of a list, in order, as the Go encoder
writes sequence fields. -/
def concatMap (f : α → String) : List α → String
  | [] => ""
  | x :: xs => f x ++ concatMap f xs

/-- Go writes CDATA sections escaping an embedded `]]>` by splitting the
section; the inputs of this development contain none. -/
def cdataSplit : List Char → List Char
  | ']' :: ']' :: '>' :: rest => "]]]]><![CDATA[>".data ++ cdataSplit rest
  | c :: rest => c :: cdataSplit rest
  | [] => []

/-- Rendering of one Field element: attributes in struct order
(MatchingRule, Name, DisplayName), character data Text. -/
def marshalField (f : Field) : String :=
  "<Field MatchingRule=\"" ++ escapeString f.MatchingRule ++
  "\" Name=\"" ++ escapeString f.Name ++
  "\" DisplayName=\"" ++ escapeString f.DisplayName ++ "\">" ++
  escapeString f.Text ++ "</Field>"

/-- Rendering of the AdditionalFields element. -/
def marshalAdditionalFields (a : AdditionalFields) : String :=
  "<AdditionalFields>" ++ concatMap marshalField a.Items ++ "</AdditionalFields>"

/-- Rendering of the Genealogy element and its Type child. -/
def marshalGenealogy (g : Genealogy) : String :=
  "<Genealogy><Type Name=\"" ++ escapeString g.Typ.Name ++
  "\" OldName=\"" ++ escapeString g.Typ.OldName ++ "\"></Type></Genealogy>"

/-- Rendering of one Label element: attributes Name and Type, text carried
as CDATA. -/
def marshalDisplayLabel (l : DisplayLabel) : String :=
  "<Label Name=\"" ++ escapeString l.Name ++ "\" Type=\"" ++ escapeString l.Typ ++
  "\"><![CDATA[" ++ (⟨cdataSplit l.Text.data⟩ : String) ++ "]]></Label>"

/-- Rendering of the DisplayInformation element. -/
def marshalDisplayInformation (d : DisplayInformation) : String :=
  "<DisplayInformation>" ++ concatMap marshalDisplayLabel d.Labels ++ "</DisplayInformation>"

/-- The Genealogy part of an Entity element: nothing for a nil pointer. -/
def renderedGenealogy (e : Entity) : String :=
  match e.Genealogy with
  | none => ""
  | some g => marshalGenealogy g

/-- The DisplayInformation part of an Entity element: nothing for a nil
pointer. -/
def renderedInfo (e : Entity) : String :=
  match e.Info with
  | none => ""
  | some d => marshalDisplayInformation d

/-- The IconURL part of an Entity element: omitempty, so nothing for the
empty string. -/
def renderedIcon (e : Entity) : String :=
  if e.IconURL = "" then "" else "<IconURL>" ++ escapeString e.IconURL ++ "</IconURL>"

/-- The AdditionalFields part of an Entity element: nothing for a nil
pointer. -/
def renderedFields (e : Entity) : String :=
  match e.Fields with
  | none => ""
  | some a => marshalAdditionalFields a

/-- Rendering of one Entity element, children in struct order: optional
Genealogy, Value, Weight (both always present, empty element when the
string is empty), optional DisplayInformation, IconURL (omitempty),
optional AdditionalFields. -/
def marshalEntity (e : Entity) : String :=
  "<Entity Type=\"" ++ escapeString e.Typ ++ "\">" ++
  renderedGenealogy e ++
  "<Value>" ++ escapeString e.Value ++ "</Value>" ++
  "<Weight>" ++ escapeString e.Weight ++ "</Weight>" ++
  renderedInfo e ++
  renderedIcon e ++
  renderedFields e ++
  "</Entity>"

/-- Rendering of one UIMessage element. -/
def marshalUIMessage (m : UIMessage) : String :=
  "<UIMessage MessageType=\"" ++ escapeString m.MessageType ++ "\">" ++
  escapeString m.Text ++ "</UIMessage>"

/-- Rendering of the response message element: Entities and UIMessages are
value fields, so both containers are always rendered. -/
def marshalResponseMessage (rm : ResponseMessage) : String :=
  "<MaltegoTransformResponseMessage><Entities>" ++
  concatMap marshalEntity rm.Entities.Items ++
  "</Entities><UIMessages>" ++
  concatMap marshalUIMessage rm.UIMessages.Items ++
  "</UIMessages></MaltegoTransformResponseMessage>"

/-- Rendering of one Exception element. -/
def marshalException (e : Exception) : String :=
  "<Exception code=\"" ++ escapeString e.Code ++ "\">" ++
  escapeString e.Text ++ "</Exception>"

/-- Rendering of the exception message element. -/
def marshalExceptionMessage (em : ExceptionMessage) : String :=
  "<MaltegoTransformExceptionMessage><Exceptions>" ++
  concatMap marshalException em.Exceptions.Items ++
  "</Exceptions></MaltegoTransformExceptionMessage>"

/-- Rendering of one TransformField element. -/
def marshalTransformField (f : TransformField) : String :=
  "<Field Name=\"" ++ escapeString f.Name ++ "\">" ++ escapeString f.Text ++ "</Field>"

/-- Rendering of the request message element, children in struct order:
Entities, Limits (attributes in struct order HardLimit, SoftLimit),
TransformFields. -/
def marshalRequestMessage (rq : RequestMessage) : String :=
  "<MaltegoTransformRequestMessage><Entities>" ++
  concatMap marshalEntity rq.Entities.Items ++
  "</Entities><Limits HardLimit=\"" ++ escapeString rq.Limits.HardLimit ++
  "\" SoftLimit=\"" ++ escapeString rq.Limits.SoftLimit ++ "\"></Limits>" ++
  "<TransformFields>" ++ concatMap marshalTransformField rq.TransformFields.Fields ++
  "</TransformFields></MaltegoTransformRequestMessage>"

/-- The response part of the envelope rendering: nothing for a nil
payload pointer. -/
def renderedResponse (tr : Transform) : String :=
  match tr.ResponseMessage with
  | none => ""
  | some rm => marshalResponseMessage rm

/-- The exception part of the envelope rendering: nothing for a nil
payload pointer. -/
def renderedException (tr : Transform) : String :=
  match tr.ExceptionMessage with
  | none => ""
  | some em => marshalExceptionMessage em

/-- The request part of the envelope rendering: nothing for a nil
payload pointer. -/
def renderedRequest (tr : Transform) : String :=
  match tr.RequestMessage with
  | none => ""
  | some rq => marshalRequestMessage rq

/-- Rendering of the whole envelope: root MaltegoMessage, children in
struct order ResponseMessage, ExceptionMessage, RequestMessage; a nil
payload pointer is not rendered at all. -/
def marshalTransform (tr : Transform) : String :=
  "<MaltegoMessage>" ++
  renderedResponse tr ++
  renderedException tr ++
  renderedRequest tr ++
  "</MaltegoMessage>"

/-- Transform.ReturnOutput (transform.go): marshal the envelope as-is.
(The Go error branch only logs; marshalling of these structures cannot
fail.) -/
def ReturnOutput (tr : Transform) : String :=
  marshalTransform tr

/-- Transform.ThrowExceptions (transform.go): set the ResponseMessage
pointer to nil, then marshal. -/
def ThrowExceptions (tr : Transform) : String :=
  marshalTransform { tr with ResponseMessage := none }

/-! ### Fidelity checks against the byte-exact expected outputs of
transform_test.go -/

example :
    ReturnOutput (AddUIMessage (AddUIMessage
      (AddEntity (AddEntity emptyTransform "type" "value").1 "type2" "value2").1
      "message" "Debug") "message2" "Debug") =
    "<MaltegoMessage><MaltegoTransformResponseMessage><Entities><Entity Type=\"type\"><Value>value</Value><Weight>100</Weight></Entity><Entity Type=\"type2\"><Value>value2</Value><Weight>100</Weight></Entity></Entities><UIMessages><UIMessage MessageType=\"Debug\">message</UIMessage><UIMessage MessageType=\"Debug\">message2</UIMessage></UIMessages></MaltegoTransformResponseMessage></MaltegoMessage>" := by
  rfl

example :
    ThrowExceptions (AddException emptyTransform "oops" "errorCode") =
    "<MaltegoMessage><MaltegoTransformExceptionMessage><Exceptions><Exception code=\"errorCode\">oops</Exception></Exceptions></MaltegoTransformExceptionMessage></MaltegoMessage>" := by
  rfl

/-- The input of TestTransformEntity (transform_test.go). -/
def testEntity : Entity :=
  { Typ := "type"
    Genealogy := none
    Value := "value"
    Weight := "10"
    Info := some { Labels := [NewDisplayLabel "name" "text", NewDisplayLabel "name2" "text2"] }
    IconURL := "http://asdf.com"
    Fields := none }

example :
    marshalEntity testEntity =
    "<Entity Type=\"type\"><Value>value</Value><Weight>10</Weight><DisplayInformation><Label Name=\"text\" Type=\"text/html\"><![CDATA[name]]></Label><Label Name=\"text2\" Type=\"text/html\"><![CDATA[name2]]></Label></DisplayInformation><IconURL>http://asdf.com</IconURL></Entity>" := by
  rfl

/-- The input of TestTransformFromStructure (transform_test.go): two
entities whose Weight strings are empty, two UI messages, no exception and
no request payload. -/
def testStructureTransform : Transform :=
  { ResponseMessage := some
      { Entities :=
          { Items :=
              [{ Typ := "type", Genealogy := none, Value := "value", Weight := "", Info := none, IconURL := "", Fields := none },
               { Typ := "type2", Genealogy := none, Value := "value2", Weight := "", Info := none, IconURL := "", Fields := none }] }
        UIMessages :=
          { Items :=
              [{ Text := "text", MessageType := "Debug" },
               { Text := "text2", MessageType := "Debug" }] } }
    ExceptionMessage := none
    RequestMessage := none }

example :
    marshalTransform testStructureTransform =
    "<MaltegoMessage><MaltegoTransformResponseMessage><Entities><Entity Type=\"type\"><Value>value</Value><Weight></Weight></Entity><Entity Type=\"type2\"><Value>value2</Value><Weight></Weight></Entity></Entities><UIMessages><UIMessage MessageType=\"Debug\">text</UIMessage><UIMessage MessageType=\"Debug\">text2</UIMessage></UIMessages></MaltegoTransformResponseMessage></MaltegoMessage>" := by
  rfl

/-! ## Local argument parser (local transform file) -/

/-- `strings.Split` for a one-character separator: split on every
occurrence, keeping empty chunks; the result is never empty. -/
def splitOnChar (sep : Char) : List Char → List (List Char)
  | [] => [[]]
  | c :: rest =>
    match splitOnChar sep rest with
    | [] => [[]]
    | g :: gs => if c = sep then [] :: g :: gs else (c :: g) :: gs

/-- `strings.Join` with a one-character separator. -/
def joinWithChar (sep : Char) : List (List Char) → List Char
  | [] => []
  | [g] => g
  | g :: gs => g ++ sep :: joinWithChar sep gs

/-- `strings.ReplaceAll(arg, "\n", " ")`: the pattern is a single
character, so this is a character map. -/
def stripNewlines (l : List Char) : List Char :=
  l.map fun c => if c = '\n' then ' ' else c

/-- Models `strings.NewReplacer("&amp;", "&", "\\=", "=")`: left-to-right
scan with non-overlapping replacement of the two patterns. -/
def replacerLocal : List Char → List Char
  | '&' :: 'a' :: 'm' :: 'p' :: ';' :: rest => '&' :: replacerLocal rest
  | '\\' :: '=' :: rest => '=' :: replacerLocal rest
  | c :: rest => c :: replacerLocal rest
  | [] => []

/-- Go map assignment `values[k] = v`: overwrite the existing binding, else
append a new one. -/
def mapInsert (m : List (String × String)) (k v : String) : List (String × String) :=
  if m.any (fun p => p.1 = k) then
    m.map fun p => if p.1 = k then (k, v) else p
  else m ++ [(k, v)]

/-- LocalTransform is used to handle a local transform from stdin
(local transform file). -/
structure LocalTransform where
  Value : String
  Values : List (String × String)
  deriving Repr, DecidableEq

/-- Body of the loop over one `kv = strings.Split(x, "=")` chunk: the Go
branch for exactly two parts stores the replaced `kv[1]`, the other branch
the replaced `strings.Join(kv[1:], "=")`; on two parts those coincide, so
both are the join of the tail. -/
def storeChunk (values : List (String × String)) (x : List Char) : List (String × String) :=
  match splitOnChar '=' x with
  | [] => values
  | k :: rest => mapInsert values ⟨k⟩ ⟨replacerLocal (joinWithChar '=' rest)⟩

/-- Processing of one raw argument: normalize newlines to spaces, skip
empty arguments, split the rest on `#` and store every chunk. -/
def processArg (values : List (String × String)) (arg : String) : List (String × String) :=
  let a := stripNewlines arg.data
  if a.length > 0 then (splitOnChar '#' a).foldl storeChunk values
  else values

/-- ParseLocalArguments (local transform file): with fewer than 2 arguments
the Go code calls log.Fatal, which terminates the process — the none case
here; otherwise the first argument is the primary value and the remaining
arguments are scanned for `#`-separated `key=value` chunks. -/
def ParseLocalArguments (args : List String) : Option LocalTransform :=
  if args.length < 2 then none
  else
    match args with
    | [] => none
    | value :: rest => some { Value := value, Values := rest.foldl processArg [] }

example : ParseLocalArguments ["snakemackerel.com"] = none := by decide

example :
    ParseLocalArguments ["snakemackerel.com", "fqdn=snakemackerel.com#a=b\\=c&amp;d"] =
    some { Value := "snakemackerel.com",
           Values := [("fqdn", "snakemackerel.com"), ("a", "b=c&d")] } := by
  rfl

/-! ## Sequences of envelope helper calls -/

/-- One envelope helper call. -/
inductive EnvelopeOp where
  | addEntity (typ value : String)
  | addUIMessage (message messageType : String)
  | addException (text code : String)
  deriving Repr, DecidableEq

/-- Application of one helper call to the envelope (the entity handle
returned by AddEntity is dropped). -/
def applyOp (tr : Transform) : EnvelopeOp → Transform
  | .addEntity t v => (AddEntity tr t v).1
  | .addUIMessage m k => AddUIMessage tr m k
  | .addException e c => AddException tr e c

/-- Application of a sequence of helper calls, oldest first. -/
def applyOps (tr : Transform) : List EnvelopeOp → Transform
  | [] => tr
  | op :: ops => applyOps (applyOp tr op) ops

/-! ## Sequences of AddProperty calls on one entity -/

/-- The four arguments of one AddProperty call. -/
structure PropSpec where
  fieldName : String
  displayName : String
  matchingRule : String
  value : String
  deriving Repr, DecidableEq

/-- The field appended by AddProperty for the given arguments. -/
def mkField (p : PropSpec) : Field :=
  { Text := EscapeText p.value, MatchingRule := p.matchingRule,
    Name := p.fieldName, DisplayName := p.displayName }

/-- Application of a sequence of AddProperty calls, oldest first. -/
def applyProps (e : Entity) : List PropSpec → Entity
  | [] => e
  | p :: ps => applyProps (AddProperty e p.fieldName p.displayName p.matchingRule p.value) ps

/-- The additional-fields list of an entity, empty when the collection is
unset. -/
def entityFields (e : Entity) : List Field :=
  match e.Fields with
  | none => []
  | some fs => fs.Items

/-- The staged response entities of an envelope, empty when the response
payload is absent. -/
def responseEntities (tr : Transform) : List Entity :=
  match tr.ResponseMessage with
  | none => []
  | some rm => rm.Entities.Items

/-- The staged UI messages of an envelope, empty when the response payload
is absent. -/
def responseUIMessages (tr : Transform) : List UIMessage :=
  match tr.ResponseMessage with
  | none => []
  | some rm => rm.UIMessages.Items

/-! ## Wire-format decoding

The repository decodes inbound wire text with Go xml.Unmarshal driven by
the struct tags above. The fragment of XML needed by the request protocol
is modelled here: start tags with double-quoted attributes, end tags,
self-closing tags and character data, decoded into the Transform envelope
by the tag names of the struct fields. -/

/-- Characters allowed in an element or attribute name. -/
def isNameChar (c : Char) : Bool :=
  c.isAlphanum || c = '.' || c = ':' || c = '-' || c = '_'

/-- Replacement of the predefined XML entities inside character data and
attribute values. -/
def unescapeXml : List Char → List Char
  | '&' :: 'a' :: 'm' :: 'p' :: ';' :: rest => '&' :: unescapeXml rest
  | '&' :: 'l' :: 't' :: ';' :: rest => '<' :: unescapeXml rest
  | '&' :: 'g' :: 't' :: ';' :: rest => '>' :: unescapeXml rest
  | '&' :: 'q' :: 'u' :: 'o' :: 't' :: ';' :: rest => Char.ofNat 34 :: unescapeXml rest
  | '&' :: 'a' :: 'p' :: 'o' :: 's' :: ';' :: rest => Char.ofNat 39 :: unescapeXml rest
  | c :: rest => c :: unescapeXml rest
  | [] => []

/-- One lexical token of the wire text. -/
inductive XmlTok where
  | startTag (name : String) (attrs : List (String × String)) (selfClosing : Bool)
  | endTag (name : String)
  | charData (text : String)
  deriving Repr, DecidableEq

/-- Reads the attribute list of a start tag up to `>` or `/>`; returns the
attributes, whether the tag was self-closing, and the rest of the input. -/
def readAttrs (fuel : Nat) (l : List Char) :
    Option (List (String × String) × Bool × List Char) :=
  match fuel with
  | 0 => none
  | fuel + 1 =>
    match l with
    | '>' :: rest => some ([], false, rest)
    | '/' :: '>' :: rest => some ([], true, rest)
    | ' ' :: rest => readAttrs fuel rest
    | c :: rest =>
      if isNameChar c then
        let name := (c :: rest).takeWhile isNameChar
        match (c :: rest).dropWhile isNameChar with
        | '=' :: q :: afterQ =>
          if q = Char.ofNat 34 then
            let val := afterQ.takeWhile (fun d => d ≠ Char.ofNat 34)
            match afterQ.dropWhile (fun d => d ≠ Char.ofNat 34) with
            | _ :: afterVal =>
              match readAttrs fuel afterVal with
              | some (attrs, sc, rest') =>
                some ((⟨name⟩, ⟨unescapeXml val⟩) :: attrs, sc, rest')
              | none => none
            | [] => none
          else none
        | _ => none
      else none
    | [] => none

/-- Lexing of the wire text into tokens. -/
def tokenize (fuel : Nat) (l : List Char) : Option (List XmlTok) :=
  match fuel with
  | 0 => none
  | fuel + 1 =>
    match l with
    | [] => some []
    | '<' :: '/' :: rest =>
      let name := rest.takeWhile isNameChar
      match rest.dropWhile isNameChar with
      | '>' :: rest' =>
        match tokenize fuel rest' with
        | some toks => some (XmlTok.endTag ⟨name⟩ :: toks)
        | none => none
      | _ => none
    | '<' :: rest =>
      let name := rest.takeWhile isNameChar
      match readAttrs (rest.length + 1) (rest.dropWhile isNameChar) with
      | some (attrs, sc, rest') =>
        match tokenize fuel rest' with
        | some toks => some (XmlTok.startTag ⟨name⟩ attrs sc :: toks)
        | none => none
      | none => none
    | c :: rest =>
      let text := (c :: rest).takeWhile (fun d => d ≠ '<')
      match tokenize fuel ((c :: rest).dropWhile (fun d => d ≠ '<')) with
      | some toks => some (XmlTok.charData ⟨unescapeXml text⟩ :: toks)
      | none => none

/-- A parsed XML node. -/
inductive XmlNode where
  | elem (name : String) (attrs : List (String × String)) (children : List XmlNode)
  | txt (text : String)
  deriving Repr

/-- Parses a sequence of sibling nodes, stopping in front of an unmatched
end tag; returns the nodes and the remaining tokens. -/
def parseNodes (fuel : Nat) (toks : List XmlTok) :
    Option (List XmlNode × List XmlTok) :=
  match fuel with
  | 0 => none
  | fuel + 1 =>
    match toks with
    | [] => some ([], [])
    | XmlTok.endTag n :: rest => some ([], XmlTok.endTag n :: rest)
    | XmlTok.charData s :: rest =>
      match parseNodes fuel rest with
      | some (ns, r) => some (XmlNode.txt s :: ns, r)
      | none => none
    | XmlTok.startTag n attrs true :: rest =>
      match parseNodes fuel rest with
      | some (ns, r) => some (XmlNode.elem n attrs [] :: ns, r)
      | none => none
    | XmlTok.startTag n attrs false :: rest =>
      match parseNodes fuel rest with
      | some (children, r) =>
        match r with
        | XmlTok.endTag n' :: r' =>
          if n' = n then
            match parseNodes fuel r' with
            | some (ns, r'') => some (XmlNode.elem n attrs children :: ns, r'')
            | none => none
          else none
        | _ => none
      | none => none

/-- Attribute lookup by name; a missing attribute leaves the Go string
field at its zero value. -/
def attrOf (attrs : List (String × String)) (name : String) : String :=
  match attrs.find? (fun p => p.1 = name) with
  | some p => p.2
  | none => ""

/-- The element children of a node list. -/
def childElems : List XmlNode → List (String × List (String × String) × List XmlNode)
  | [] => []
  | XmlNode.elem n a c :: rest => (n, a, c) :: childElems rest
  | XmlNode.txt _ :: rest => childElems rest

/-- The concatenated character data of a node list. -/
def textContent : List XmlNode → String
  | [] => ""
  | XmlNode.txt s :: rest => s ++ textContent rest
  | XmlNode.elem _ _ _ :: rest => textContent rest

/-- The first child element with the given tag name. -/
def findChild (nodes : List XmlNode) (name : String) :
    Option (List (String × String) × List XmlNode) :=
  match (childElems nodes).find? (fun t => t.1 = name) with
  | some t => some t.2
  | none => none

/-- The character data of the first child element with the given tag name,
or the zero value. -/
def childText (nodes : List XmlNode) (name : String) : String :=
  match findChild nodes name with
  | some (_, children) => textContent children
  | none => ""

/-- Decoding of a Field element (attributes Name, DisplayName,
MatchingRule; character-data value). -/
def decodeField (attrs : List (String × String)) (children : List XmlNode) : Field :=
  { Text := textContent children, MatchingRule := attrOf attrs "MatchingRule",
    Name := attrOf attrs "Name", DisplayName := attrOf attrs "DisplayName" }

/-- Decoding of an Entity element per the struct tags of Entity. -/
def decodeEntity (attrs : List (String × String)) (children : List XmlNode) : Entity :=
  { Typ := attrOf attrs "Type"
    Genealogy :=
      match findChild children "Genealogy" with
      | some (_, gchildren) =>
        match findChild gchildren "Type" with
        | some (gattrs, _) =>
          some { Typ := { Name := attrOf gattrs "Name", OldName := attrOf gattrs "OldName" } }
        | none => some { Typ := { Name := "", OldName := "" } }
      | none => none
    Value := childText children "Value"
    Weight := childText children "Weight"
    Info := none
    IconURL := childText children "IconURL"
    Fields :=
      match findChild children "AdditionalFields" with
      | some (_, fchildren) =>
        some { Items := (childElems fchildren).filterMap fun t =>
          if t.1 = "Field" then some (decodeField t.2.1 t.2.2) else none }
      | none => none }

/-- Decoding of the Entities container: every Entity child element. -/
def decodeEntities (children : List XmlNode) : Entities :=
  { Items := (childElems children).filterMap fun t =>
      if t.1 = "Entity" then some (decodeEntity t.2.1 t.2.2) else none }

/-- Decoding of the request message element per the struct tags of
RequestMessage. -/
def decodeRequestMessage (children : List XmlNode) : RequestMessage :=
  { Entities :=
      match findChild children "Entities" with
      | some (_, echildren) => decodeEntities echildren
      | none => { Items := [] }
    Limits :=
      match findChild children "Limits" with
      | some (lattrs, _) =>
        { HardLimit := attrOf lattrs "HardLimit", SoftLimit := attrOf lattrs "SoftLimit" }
      | none => { HardLimit := "", SoftLimit := "" }
    TransformFields :=
      match findChild children "TransformFields" with
      | some (_, fchildren) =>
        { Fields := (childElems fchildren).filterMap fun t =>
            if t.1 = "Field" then
              some { Text := textContent t.2.2, Name := attrOf t.2.1 "Name" }
            else none }
      | none => { Fields := [] } }

/-- Decoding of the response message element per the struct tags of
ResponseMessage. -/
def decodeResponseMessage (children : List XmlNode) : ResponseMessage :=
  { Entities :=
      match findChild children "Entities" with
      | some (_, echildren) => decodeEntities echildren
      | none => { Items := [] }
    UIMessages :=
      match findChild children "UIMessages" with
      | some (_, uchildren) =>
        { Items := (childElems uchildren).filterMap fun t =>
            if t.1 = "UIMessage" then
              some { Text := textContent t.2.2, MessageType := attrOf t.2.1 "MessageType" }
            else none }
      | none => { Items := [] } }

/-- Decoding of the exception message element per the struct tags of
ExceptionMessage. -/
def decodeExceptionMessage (children : List XmlNode) : ExceptionMessage :=
  { Exceptions :=
      match findChild children "Exceptions" with
      | some (_, echildren) =>
        { Items := (childElems echildren).filterMap fun t =>
            if t.1 = "Exception" then
              some { Text := textContent t.2.2, Code := attrOf t.2.1 "code" }
            else none }
      | none => { Items := [] } }

/-- Decoding of wire text into the Transform envelope: the root element
must be MaltegoMessage (the XMLName tag); each recognized child element
populates the corresponding payload pointer, unrecognized children are
ignored. -/
def decodeTransform (s : String) : Option Transform :=
  match tokenize (s.data.length + 1) s.data with
  | none => none
  | some toks =>
    match parseNodes (toks.length + 1) toks with
    | some (nodes, []) =>
      match childElems nodes with
      | [(rootName, _, children)] =>
        if rootName = "MaltegoMessage" then
          some { ResponseMessage :=
                   match findChild children "MaltegoTransformResponseMessage" with
                   | some (_, c) => some (decodeResponseMessage c)
                   | none => none
                 ExceptionMessage :=
                   match findChild children "MaltegoTransformExceptionMessage" with
                   | some (_, c) => some (decodeExceptionMessage c)
                   | none => none
                 RequestMessage :=
                   match findChild children "MaltegoTransformRequestMessage" with
                   | some (_, c) => some (decodeRequestMessage c)
                   | none => none }
        else none
      | _ => none
    | _ => none

/-- The wire text of the decode scenario in the spec and README. -/
def dnsRequestWire : String :=
  "<MaltegoMessage><MaltegoTransformRequestMessage><Entities><Entity Type=\"DNSName\"><Value>alpine.paterva.com</Value><Weight>0</Weight></Entity></Entities><Limits SoftLimit=\"256\" HardLimit=\"256\"/></MaltegoTransformRequestMessage></MaltegoMessage>"

/-- The envelope that decoding the scenario wire text must produce. -/
def dnsRequestTransform : Transform :=
  { ResponseMessage := none
    ExceptionMessage := none
    RequestMessage := some
      { Entities :=
          { Items :=
              [{ Typ := "DNSName", Genealogy := none, Value := "alpine.paterva.com",
                 Weight := "0", Info := none, IconURL := "", Fields := none }] }
        Limits := { HardLimit := "256", SoftLimit := "256" }
        TransformFields := { Fields := [] } } }

example : decodeTransform dnsRequestWire = some dnsRequestTransform := by rfl

/-! ## General lemmas -/

/-- Rendering a concatenated list concatenates the renderings. -/
theorem concatMap_append (f : α → String) (l₁ l₂ : List α) :
    concatMap f (l₁ ++ l₂) = concatMap f l₁ ++ concatMap f l₂ := by
  induction l₁ with
  | nil => simp [concatMap]
  | cons x xs ih => simp [concatMap, ih, String.append_assoc]

/-- None of the three envelope helpers touches the request payload. -/
theorem applyOps_requestMessage (ops : List EnvelopeOp) (tr : Transform) :
    (applyOps tr ops).RequestMessage = tr.RequestMessage := by
  induction ops generalizing tr with
  | nil => rfl
  | cons op ops ih =>
    cases op <;> simp [applyOps, applyOp, AddEntity, AddUIMessage, AddException, ih]

/-- AddProperty appends exactly one field. -/
theorem addProperty_entityFields (e : Entity) (n d m v : String) :
    entityFields (AddProperty e n d m v) =
      entityFields e ++ [mkField { fieldName := n, displayName := d, matchingRule := m, value := v }] := by
  cases h : e.Fields <;> simp [AddProperty, entityFields, mkField, h]

/-- A sequence of AddProperty calls appends exactly its fields, in order. -/
theorem applyProps_entityFields (ps : List PropSpec) (e : Entity) :
    entityFields (applyProps e ps) = entityFields e ++ ps.map mkField := by
  induction ps generalizing e with
  | nil => simp [applyProps]
  | cons p ps ih => simp [applyProps, ih, addProperty_entityFields]

/-- Once the field collection is set, it stays set, and collects exactly
the appended fields. -/
theorem applyProps_fields_some (ps : List PropSpec) (e : Entity) (fs : AdditionalFields)
    (h : e.Fields = some fs) :
    (applyProps e ps).Fields = some { Items := fs.Items ++ ps.map mkField } := by
  induction ps generalizing e fs with
  | nil => simp [applyProps, h]
  | cons p ps ih =>
    have h' : (AddProperty e p.fieldName p.displayName p.matchingRule p.value).Fields =
        some { Items := fs.Items ++ [mkField p] } := by
      simp [AddProperty, h, mkField]
    simp [applyProps, ih _ _ h', mkField]

/-- After at least one AddProperty call on an entity whose collection was
unset, GetFieldByName no longer panics and scans exactly the appended
fields. -/
theorem getFieldByName_applyProps (e : Entity) (h : e.Fields = none)
    (q : PropSpec) (ps : List PropSpec) (name : String) :
    GetFieldByName (applyProps e (q :: ps)) name =
      some (lookupField ((q :: ps).map mkField) name) := by
  have h1 : (AddProperty e q.fieldName q.displayName q.matchingRule q.value).Fields =
      some { Items := [mkField q] } := by
    simp [AddProperty, h, mkField]
  have h2 := applyProps_fields_some ps _ _ h1
  simp [applyProps, GetFieldByName, h2, mkField]

/-- The linear scan skips a prefix holding no field of the wanted name. -/
theorem lookupField_append_no_match (l₁ l₂ : List Field) (name : String)
    (h : ∀ f ∈ l₁, f.Name ≠ name) :
    lookupField (l₁ ++ l₂) name = lookupField l₂ name := by
  induction l₁ with
  | nil => rfl
  | cons f fs ih =>
    have hf : f.Name ≠ name := h f (by simp)
    simp only [List.cons_append, lookupField, if_neg hf]
    exact ih fun g hg => h g (by simp [hg])

/-! ## Claim theorems -/

/-- C1. The claim states that GetFieldByName on an entity whose
additional-fields collection is unset returns the empty string for every
name. The code instead ranges over `tre.Fields.Items` without a nil check,
dereferencing the nil Fields pointer: the call panics (the none case of
the embedding) instead of returning anything, for every name. An entity
whose collection is present but empty does return the empty string, which
is what the spec describes. -/
theorem C1_getFieldByName_unset_fields_panics (name : String) :
    GetFieldByName (NewEntity "maltego.DNSName" "example.com" "0") name = none ∧
    GetFieldByName { NewEntity "maltego.DNSName" "example.com" "0" with
      Fields := some { Items := [] } } name = some "" :=
  ⟨rfl, rfl⟩

/-- The envelope of the C2 counterexample: one entity staged, then one
exception added, then ReturnOutput (not ThrowExceptions) rendered. -/
def c2Envelope : Transform :=
  AddException (AddEntity emptyTransform "maltego.DNSName" "example.com").1 "oops" "errorCode"

/-- C2 counterexample. AddException does not clear the staged response
payload and ReturnOutput marshals the envelope as-is, so the text produced
by ReturnOutput after AddEntity followed by AddException contains both a
MaltegoTransformResponseMessage element and a
MaltegoTransformExceptionMessage element, refuting the claim that it never
contains both. -/
theorem C2_counterexample_returnOutput_renders_both :
    (∃ u v : String, u ++ "<MaltegoTransformResponseMessage>" ++ v = ReturnOutput c2Envelope) ∧
    (∃ u v : String, u ++ "<MaltegoTransformExceptionMessage>" ++ v = ReturnOutput c2Envelope) := by
  constructor
  · exact ⟨"<MaltegoMessage>",
      "<Entities><Entity Type=\"maltego.DNSName\"><Value>example.com</Value><Weight>100</Weight></Entity></Entities><UIMessages></UIMessages></MaltegoTransformResponseMessage><MaltegoTransformExceptionMessage><Exceptions><Exception code=\"errorCode\">oops</Exception></Exceptions></MaltegoTransformExceptionMessage></MaltegoMessage>",
      by rfl⟩
  · exact ⟨"<MaltegoMessage><MaltegoTransformResponseMessage><Entities><Entity Type=\"maltego.DNSName\"><Value>example.com</Value><Weight>100</Weight></Entity></Entities><UIMessages></UIMessages></MaltegoTransformResponseMessage>",
      "<Exceptions><Exception code=\"errorCode\">oops</Exception></Exceptions></MaltegoTransformExceptionMessage></MaltegoMessage>",
      by rfl⟩

/-- C2 amended. After any sequence of AddEntity, AddUIMessage and
AddException calls on a fresh envelope, it is the text produced by
ThrowExceptions — not ReturnOutput — that never carries both payloads: the
response payload is cleared before marshalling, so the output is exactly
the MaltegoMessage root wrapping at most the exception element, with no
MaltegoTransformResponseMessage element. -/
theorem C2_throwExceptions_renders_exception_only (ops : List EnvelopeOp) :
    ThrowExceptions (applyOps emptyTransform ops) =
      "<MaltegoMessage>" ++ renderedException (applyOps emptyTransform ops) ++ "</MaltegoMessage>" := by
  have hreq : (applyOps emptyTransform ops).RequestMessage = none :=
    applyOps_requestMessage ops emptyTransform
  simp [ThrowExceptions, marshalTransform, renderedResponse, renderedException,
    renderedRequest, hreq, String.empty_append, String.append_empty, String.append_assoc]

/-- C3. ThrowExceptions first clears the response payload and then
marshals: for every envelope whose request payload is absent and whose
exception payload is populated, the output is the MaltegoMessage root with
the MaltegoTransformExceptionMessage element as its sole child and no
MaltegoTransformResponseMessage sibling, regardless of the entities or UI
messages staged before. -/
theorem C3_throwExceptions_sole_child (tr : Transform) (em : ExceptionMessage)
    (hreq : tr.RequestMessage = none) (hexc : tr.ExceptionMessage = some em) :
    ThrowExceptions tr =
      "<MaltegoMessage>" ++ marshalExceptionMessage em ++ "</MaltegoMessage>" := by
  simp [ThrowExceptions, marshalTransform, renderedResponse, renderedException,
    renderedRequest, hreq, hexc, String.empty_append, String.append_empty, String.append_assoc]

/-- The envelope of the C3 witness: entities and a UI message staged
before the exception was added. -/
def c3Envelope : Transform :=
  AddException (AddUIMessage (AddEntity emptyTransform "t" "v").1 "m" "Debug") "oops" "errorCode"

/-- The exception payload held by the C3 witness envelope. -/
def c3ExceptionMessage : ExceptionMessage :=
  { Exceptions := { Items := [{ Text := "oops", Code := "errorCode" }] } }

/-- Witness for C3 at a concrete envelope with staged response content. -/
theorem C3_witness :
    c3Envelope.RequestMessage = none ∧
    c3Envelope.ExceptionMessage = some c3ExceptionMessage ∧
    ThrowExceptions c3Envelope =
      "<MaltegoMessage>" ++ marshalExceptionMessage c3ExceptionMessage ++ "</MaltegoMessage>" :=
  ⟨rfl, rfl, C3_throwExceptions_sole_child c3Envelope c3ExceptionMessage rfl rfl⟩

/-- C4. AddEntity(type, value) creates the response payload if absent,
appends exactly one entity whose Type is type, whose Value is the escaped
value and whose Weight is "100", and the rendered response text carries
that entity's element — Type attribute equal to type, Value child carrying
the escaped value, Weight child "100" — inside the Entities container of
the MaltegoTransformResponseMessage element. -/
theorem C4_addEntity_renders_entity (tr : Transform) (typ value : String) :
    (AddEntity tr typ value).1.ResponseMessage.isSome = true ∧
    (AddEntity tr typ value).2.Typ = typ ∧
    (AddEntity tr typ value).2.Value = EscapeText value ∧
    (AddEntity tr typ value).2.Weight = "100" ∧
    responseEntities (AddEntity tr typ value).1 =
      responseEntities tr ++ [(AddEntity tr typ value).2] ∧
    marshalEntity (AddEntity tr typ value).2 =
      "<Entity Type=\"" ++ escapeString typ ++ "\"><Value>" ++
        escapeString (EscapeText value) ++ "</Value><Weight>100</Weight></Entity>" ∧
    ReturnOutput (AddEntity tr typ value).1 =
      "<MaltegoMessage><MaltegoTransformResponseMessage><Entities>" ++
      concatMap marshalEntity (responseEntities tr) ++
      marshalEntity (AddEntity tr typ value).2 ++
      "</Entities><UIMessages>" ++ concatMap marshalUIMessage (responseUIMessages tr) ++
      "</UIMessages></MaltegoTransformResponseMessage>" ++
      renderedException tr ++ renderedRequest tr ++ "</MaltegoMessage>" := by
  refine ⟨?_, rfl, rfl, rfl, ?_, ?_, ?_⟩
  · cases h : tr.ResponseMessage <;> simp [AddEntity, h]
  · cases h : tr.ResponseMessage <;>
      simp [AddEntity, responseEntities, h]
  · simp [marshalEntity, NewEntity, AddEntity, renderedGenealogy, renderedInfo,
      renderedIcon, renderedFields, String.append_assoc, String.append_empty]
    rfl
  · cases h : tr.ResponseMessage <;>
      simp [ReturnOutput, marshalTransform, marshalResponseMessage, AddEntity,
        renderedResponse, renderedException, renderedRequest, responseEntities,
        responseUIMessages, concatMap_append, concatMap, h,
        String.append_assoc, String.append_empty, String.empty_append] <;>
      rfl

/-- C5. An entity whose Value and Weight strings are empty still renders
Value and Weight as empty elements rather than omitting them, while the
absent payload pointers of an envelope are not rendered at all: an
envelope with only an exception payload renders only that element, and an
envelope with no payload renders an empty MaltegoMessage root. -/
theorem C5_empty_elements_rendered (e : Entity) (em : ExceptionMessage)
    (hv : e.Value = "") (hw : e.Weight = "") :
    marshalEntity e =
      "<Entity Type=\"" ++ escapeString e.Typ ++ "\">" ++ renderedGenealogy e ++
        "<Value></Value><Weight></Weight>" ++ renderedInfo e ++ renderedIcon e ++
        renderedFields e ++ "</Entity>" ∧
    marshalTransform
        { ResponseMessage := none, ExceptionMessage := some em, RequestMessage := none } =
      "<MaltegoMessage>" ++ marshalExceptionMessage em ++ "</MaltegoMessage>" ∧
    marshalTransform emptyTransform = "<MaltegoMessage></MaltegoMessage>" := by
  refine ⟨?_, ?_, rfl⟩
  · simp [marshalEntity, hv, hw, String.append_assoc]
    rfl
  · simp [marshalTransform, renderedResponse, renderedException, renderedRequest,
      String.empty_append, String.append_empty, String.append_assoc]

/-- Witness for C5 at a concrete entity and exception payload. -/
theorem C5_witness :
    (NewEntity "maltego.Phrase" "" "").Value = "" ∧
    (NewEntity "maltego.Phrase" "" "").Weight = "" ∧
    marshalEntity (NewEntity "maltego.Phrase" "" "") =
      "<Entity Type=\"" ++ escapeString "maltego.Phrase" ++ "\">" ++
        renderedGenealogy (NewEntity "maltego.Phrase" "" "") ++
        "<Value></Value><Weight></Weight>" ++
        renderedInfo (NewEntity "maltego.Phrase" "" "") ++
        renderedIcon (NewEntity "maltego.Phrase" "" "") ++
        renderedFields (NewEntity "maltego.Phrase" "" "") ++ "</Entity>" :=
  ⟨rfl, rfl,
    (C5_empty_elements_rendered (NewEntity "maltego.Phrase" "" "")
      { Exceptions := { Items := [] } } rfl rfl).1⟩

/-- C6. EscapeText composes standard XML character escaping with the
unconditional newline-entity replacement: escaping alone turns the
one-character string of a line feed into the entity sequence, and
EscapeText then turns it back, so EscapeText of a newline is the literal
newline, not the entity sequence. -/
theorem C6_escapeText_newline :
    escapeString "\n" = "&#xA;" ∧ EscapeText "\n" = "\n" ∧ EscapeText "\n" ≠ "&#xA;" :=
  ⟨rfl, rfl, by decide⟩

/-- C7. Decoding the scenario wire text populates only the request
payload, holding exactly one entity of Type DNSName with Value
alpine.paterva.com and Weight 0, under soft limit 256 and hard limit
256. -/
theorem C7_decode_request_scenario :
    decodeTransform dnsRequestWire = some dnsRequestTransform := by rfl

/-- C8. Calling AddProperty repeatedly on one fresh entity appends one
field per call without ever deduplicating — the field list is exactly the
calls, in order — and GetFieldByName then returns the (escaped) value of
the first appended field bearing the requested name, even when later calls
reused that name. -/
theorem C8_addProperty_append_first_match
    (e : Entity) (ps₁ ps₂ : List PropSpec) (p : PropSpec) (name : String)
    (hFields : e.Fields = none) (hp : p.fieldName = name)
    (hfirst : ∀ q ∈ ps₁, q.fieldName ≠ name) :
    entityFields (applyProps e (ps₁ ++ p :: ps₂)) = (ps₁ ++ p :: ps₂).map mkField ∧
    GetFieldByName (applyProps e (ps₁ ++ p :: ps₂)) name = some (EscapeText p.value) := by
  constructor
  · rw [applyProps_entityFields]
    simp [entityFields, hFields]
  · have hne : ∃ q ps, ps₁ ++ p :: ps₂ = q :: ps := by
      cases ps₁ with
      | nil => exact ⟨p, ps₂, rfl⟩
      | cons q qs => exact ⟨q, qs ++ p :: ps₂, rfl⟩
    obtain ⟨q, ps, hqs⟩ := hne
    rw [hqs, getFieldByName_applyProps e hFields q ps name, ← hqs]
    rw [List.map_append, List.map_cons]
    rw [lookupField_append_no_match (ps₁.map mkField) _ name ?side]
    case side =>
      intro f hf
      obtain ⟨q', hq', rfl⟩ := List.mem_map.mp hf
      simpa [mkField] using hfirst q' hq'
    simp [lookupField, mkField, hp]

/-- The fresh entity of the C8 witness. -/
def c8Entity : Entity := NewEntity "maltego.DNSName" "example.com" "0"

/-- First AddProperty call of the C8 witness: name fqdn, value first. -/
def c8First : PropSpec :=
  { fieldName := "fqdn", displayName := "Fqdn", matchingRule := "strict", value := "first" }

/-- Second AddProperty call of the C8 witness: same name, value second. -/
def c8Second : PropSpec :=
  { fieldName := "fqdn", displayName := "Fqdn", matchingRule := "strict", value := "second" }

/-- Witness for C8: two AddProperty calls with the same field name on one
fresh entity yield two fields, and the lookup returns the first value. -/
theorem C8_witness :
    c8Entity.Fields = none ∧
    entityFields (applyProps c8Entity ([] ++ c8First :: [c8Second])) =
      ([] ++ c8First :: [c8Second]).map mkField ∧
    GetFieldByName (applyProps c8Entity ([] ++ c8First :: [c8Second])) "fqdn" =
      some (EscapeText "first") :=
  ⟨rfl,
    (C8_addProperty_append_first_match c8Entity [] [c8Second] c8First "fqdn" rfl rfl
      (by simp)).1,
    (C8_addProperty_append_first_match c8Entity [] [c8Second] c8First "fqdn" rfl rfl
      (by simp)).2⟩

/-- C9. ParseLocalArguments terminates the process fatally (the none case)
for every argument list with fewer than 2 elements, and returns normally
for every list with at least 2 elements, with the primary value equal to
the first argument. -/
theorem C9_parseLocalArguments_arity (args : List String) :
    (args.length < 2 → ParseLocalArguments args = none) ∧
    (∀ a b rest, args = a :: b :: rest →
      ∃ values, ParseLocalArguments args = some { Value := a, Values := values }) := by
  constructor
  · intro h
    simp [ParseLocalArguments, h]
  · rintro a b rest rfl
    refine ⟨(b :: rest).foldl processArg [], ?_⟩
    have h2 : ¬ (a :: b :: rest).length < 2 := by
      simp [List.length_cons]
    simp [ParseLocalArguments, h2]

/-- Witness for C9: one argument dies fatally, two return normally with
the first argument as the primary value. -/
theorem C9_witness :
    ["example.com"].length < 2 ∧
    ParseLocalArguments ["example.com"] = none ∧
    ∃ values, ParseLocalArguments ["example.com", "fqdn=example.com"] =
      some { Value := "example.com", Values := values } :=
  ⟨by decide,
    (C9_parseLocalArguments_arity ["example.com"]).1 (by decide),
    (C9_parseLocalArguments_arity ["example.com", "fqdn=example.com"]).2
      "example.com" "fqdn=example.com" [] rfl⟩

/-- C10. Each envelope helper mutates only its own payload field:
AddEntity and AddUIMessage leave the exception and request payloads
untouched, AddException leaves the response and request payloads untouched
— in particular a previously staged response payload stays in place,
unchanged, across AddException. -/
theorem C10_helpers_frame (tr : Transform) (t v m k e c : String) :
    (AddEntity tr t v).1.ExceptionMessage = tr.ExceptionMessage ∧
    (AddEntity tr t v).1.RequestMessage = tr.RequestMessage ∧
    (AddUIMessage tr m k).ExceptionMessage = tr.ExceptionMessage ∧
    (AddUIMessage tr m k).RequestMessage = tr.RequestMessage ∧
    (AddException tr e c).ResponseMessage = tr.ResponseMessage ∧
    (AddException tr e c).RequestMessage = tr.RequestMessage :=
  ⟨rfl, rfl, rfl, rfl, rfl, rfl⟩

end Maltego
